import Mathlib

/-!
Verification development for the two spot-pricing scripts
`cpu-spot-pricing.py` and `gpu-spot-pricing.py`.

Prices are `float` in Python; every comparison proved below involves
quantities whose distance is far above double-precision rounding error,
so prices are embedded as rationals (`ℚ`).
-/

/-- Exceptions that the Python code can raise while handling one record:
`indexError` from an out-of-range list subscript, `valueError` from
`float(...)`, `InstanceFamily(...)` or the `gpu_count` fallthrough
(`raise ValueError(self.instance_type)`), `keyError` from a missing
dict key such as `data["InstanceType"]`. -/
inductive PyErr where
  | indexError : PyErr
  | valueError : String → PyErr
  | keyError : String → PyErr
deriving DecidableEq

deriving instance DecidableEq for Except

/-- Embeds the `Pricing` attrs class shared by both scripts:
`instance_type`, `zone_id`, and `spot_price` (a float, embedded as ℚ). -/
structure Pricing where
  instance_type : String
  zone_id : String
  spot_price : ℚ
deriving DecidableEq

/-- Embeds Python `str.split(sep)` for a single-character separator on the
character list of the string: `"".split(".") == [""]`,
`"a.b".split(".") == ["a","b"]`, `"ab".split(".") == ["ab"]`. -/
def splitOnChar (sep : Char) : List Char → List (List Char)
  | [] => [[]]
  | c :: cs =>
    if c = sep then [] :: splitOnChar sep cs
    else
      match splitOnChar sep cs with
      | [] => [[c]]
      | h :: t => (c :: h) :: t

/-- Python `s.split(sep)` on strings, via `splitOnChar`. -/
def pySplit (sep : Char) (s : String) : List String :=
  (splitOnChar sep s.data).map String.mk

/-- Embeds the `InstanceFamily` StrEnum of `gpu-spot-pricing.py`; the
`auto()` values are the lowercased member names `"g5"` and `"g6e"`. -/
inductive InstanceFamily where
  | g5 : InstanceFamily
  | g6e : InstanceFamily
deriving DecidableEq

/-- Embeds `Pricing.instance_family` of `gpu-spot-pricing.py`:
`InstanceFamily(self.instance_type.split(".")[0])`; a value that is not a
member of the enum raises `ValueError`.  `split` never returns an empty
list, so the `[0]` subscript itself cannot fail. -/
def Pricing.instance_family (p : Pricing) : Except PyErr InstanceFamily :=
  match pySplit '.' p.instance_type with
  | [] => .error .indexError
  | f :: _ =>
    if f = "g5" then .ok .g5
    else if f = "g6e" then .ok .g6e
    else .error (.valueError f)

/-- Embeds `Pricing.instance_size` of `gpu-spot-pricing.py`:
`self.instance_type.split(".")[1]`; the `[1]` subscript raises
`IndexError` when the split produced fewer than two segments. -/
def Pricing.instance_size (p : Pricing) : Except PyErr String :=
  match (pySplit '.' p.instance_type).get? 1 with
  | some s => .ok s
  | none => .error .indexError

/-- Embeds `Pricing.gpu_count` of `gpu-spot-pricing.py`: the `match` on
`instance_size` mapping sizes to GPU counts, raising
`ValueError(self.instance_type)` on any other size.  An exception from
`instance_size` itself propagates. -/
def Pricing.gpu_count (p : Pricing) : Except PyErr Nat :=
  match p.instance_size with
  | .error e => .error e
  | .ok s =>
    if s = "xlarge" || s = "2xlarge" || s = "4xlarge" || s = "8xlarge" || s = "16xlarge" then .ok 1
    else if s = "12xlarge" || s = "24xlarge" then .ok 4
    else if s = "48xlarge" then .ok 8
    else .error (.valueError p.instance_type)

/-- Character is an ASCII decimal digit. -/
def isDigitChar (c : Char) : Bool :=
  48 ≤ c.toNat && c.toNat ≤ 57

/-- Numeric value of a digit string, most significant digit first. -/
def digitsVal (l : List Char) : Nat :=
  l.foldl (fun a c => 10 * a + (c.toNat - 48)) 0

/-- Helper of `pyFloat`: parses the unsigned part `digits [ "." digits ]`
of a decimal literal, requiring at least one digit overall; `s` is the
whole original string (used in the `ValueError`) and `sign` the already
consumed sign. -/
def pyFloatDigits (s : String) (sign : ℚ) (l : List Char) : Except PyErr ℚ :=
  let intPart := l.takeWhile isDigitChar
  let rest := l.dropWhile isDigitChar
  if rest = [] then
    if intPart = [] then .error (.valueError s)
    else .ok (sign * (digitsVal intPart : ℚ))
  else if rest.head? = some '.' then
    let frac := rest.tail
    if frac.all isDigitChar && !(intPart = [] && frac = []) then
      .ok (sign * ((digitsVal intPart : ℚ) + (digitsVal frac : ℚ) / (10 ^ frac.length : ℚ)))
    else .error (.valueError s)
  else .error (.valueError s)

/-- Embeds Python `float(s)` on the plain decimal literals the provider
supplies (optional sign, digits, optional fractional part; at least one
digit overall).  Any other string raises `ValueError`; Python's
exponent/inf/nan forms and whitespace stripping are outside the inputs
this development evaluates and are mapped to the error case only when
they are not plain decimals. -/
def pyFloat (s : String) : Except PyErr ℚ :=
  if s.data.head? = some '-' then pyFloatDigits s (-1) s.data.tail
  else if s.data.head? = some '+' then pyFloatDigits s 1 s.data.tail
  else pyFloatDigits s 1 s.data

/-- Embeds one raw element of a `SpotPriceHistory` page: the three fields
the scripts read, each of which may be absent from the dict. -/
structure SpotPriceDict where
  InstanceType : Option String
  AvailabilityZoneId : Option String
  SpotPrice : Option String
deriving DecidableEq

/-- Embeds `Pricing.from_dict` (identical in both scripts):
`cls(instance_type=data["InstanceType"], zone_id=data["AvailabilityZoneId"],
spot_price=data["SpotPrice"])`.  A missing key raises `KeyError` (subscripts
are evaluated left to right); the attrs `converter=float` then parses the
price string, raising `ValueError` on a malformed string.  No sign check is
performed anywhere. -/
def Pricing.from_dict (data : SpotPriceDict) : Except PyErr Pricing :=
  match data.InstanceType with
  | none => .error (.keyError "InstanceType")
  | some it =>
    match data.AvailabilityZoneId with
    | none => .error (.keyError "AvailabilityZoneId")
    | some zid =>
      match data.SpotPrice with
      | none => .error (.keyError "SpotPrice")
      | some sp =>
        match pyFloat sp with
        | .error e => .error e
        | .ok q => .ok ⟨it, zid, q⟩

/-- Embeds the decode loop `for pricing in map(Pricing.from_dict,
page["SpotPriceHistory"])` of `query_region` (both scripts): records are
decoded and forwarded one by one; the first exception from `from_dict`
aborts the loop, so the result is the list of records decoded before the
first failure together with the escaped exception, if any. -/
def decodePage : List SpotPriceDict → List Pricing × Option PyErr
  | [] => ([], none)
  | d :: rest =>
    match Pricing.from_dict d with
    | .error e => ([], some e)
    | .ok p =>
      let r := decodePage rest
      (p :: r.1, r.2)

/-- Embeds `G6E_G5_PERF_RATIO = 2.35` of `gpu-spot-pricing.py`. -/
def G6E_G5_PERF_RATIO : ℚ := 47 / 20

/-- Embeds `MAX_PRICE_PER_GPU_HOUR = 0.49` of `gpu-spot-pricing.py`. -/
def MAX_PRICE_PER_GPU_HOUR : ℚ := 49 / 100

/-- Embeds `MAX_PRICE = 1.2` of `cpu-spot-pricing.py`. -/
def MAX_PRICE : ℚ := 6 / 5

/-- Embeds the ceiling computation of `gpu-spot-pricing.py` `main`
(lines 93-98): `max_price = pricing.gpu_count * MAX_PRICE_PER_GPU_HOUR`,
then `max_price /= G6E_G5_PERF_RATIO` when the family is G5 and no
adjustment when it is G6E.  `gpu_count` is evaluated before
`instance_family`, and an exception from either propagates. -/
def gpuMaxPrice (p : Pricing) : Except PyErr ℚ :=
  match p.gpu_count with
  | .error e => .error e
  | .ok c =>
    match p.instance_family with
    | .error e => .error e
    | .ok .g5 => .ok ((c : ℚ) * MAX_PRICE_PER_GPU_HOUR / G6E_G5_PERF_RATIO)
    | .ok .g6e => .ok ((c : ℚ) * MAX_PRICE_PER_GPU_HOUR)

/-- Embeds the acceptance test of `gpu-spot-pricing.py` `main` (line 100):
`pricing.spot_price <= max_price`, with exceptions from the ceiling
computation propagating. -/
def gpuAccept (p : Pricing) : Except PyErr Bool :=
  match gpuMaxPrice p with
  | .error e => .error e
  | .ok m => .ok (decide (p.spot_price ≤ m))

/-- Embeds the consumer loop of `gpu-spot-pricing.py` `main` (lines 92-101):
records from the aggregated stream are classified in arrival order and
accepted ones printed; an exception raised while classifying a record
escapes the `async for`, so processing stops there.  The result is the
list of records printed before the first exception together with that
exception, if any. -/
def gpuConsume : List Pricing → List Pricing × Option PyErr
  | [] => ([], none)
  | p :: rest =>
    match gpuAccept p with
    | .error e => ([], some e)
    | .ok b =>
      let r := gpuConsume rest
      (if b then p :: r.1 else r.1, r.2)

/-- Embeds the acceptance test of `cpu-spot-pricing.py` `main` (line 65):
`pricing.spot_price <= MAX_PRICE`. -/
def cpuAccept (p : Pricing) : Bool :=
  decide (p.spot_price ≤ MAX_PRICE)

/-- Embeds the consumer loop of `cpu-spot-pricing.py` `main` (lines 64-66):
each record of the aggregated stream is printed iff its spot price is at
most `MAX_PRICE`; nothing in this loop can raise. -/
def cpuConsume : List Pricing → List Pricing
  | [] => []
  | p :: rest =>
    if cpuAccept p then p :: cpuConsume rest else cpuConsume rest

/-- One event of a fetch task's script: either the task sends one decoded
record into the shared stream (`price`), or it raises a fetch error
(`fetchErr`), as a transport/decode failure inside `query_region` would. -/
inductive Ev where
  | price : Pricing → Ev
  | fetchErr : Ev
deriving DecidableEq

/-- State of one spawned `query_region` task: the events it has yet to
perform, and whether it has terminated (by returning, raising, or being
cancelled).  The `async with ... output:` header guarantees the task's
clone of the send stream is closed exactly when the task terminates, on
every exit path. -/
structure TaskSt where
  pending : List Ev
  done : Bool
deriving DecidableEq

/-- State of one run of `main` (either script): the per-region tasks, the
records the consumer has received from the stream so far (`consumed`, in
arrival order), whether some task has raised (`failed`) — which, under
anyio task-group semantics, cancels the cancel scope — and whether the
consumer's `async for` has observed end-of-stream (`closed`). -/
structure RunState where
  tasks : List TaskSt
  consumed : List Pricing
  failed : Bool
  closed : Bool
deriving DecidableEq

/-- Initial state of a run whose regions will produce the given event
sequences: one task per region, nothing consumed, no failure, stream not
closed.  The parent's own send handle is closed by `await
send_stream.aclose()` before consumption starts, so only the task clones
keep the stream open. -/
def initRun (evss : List (List Ev)) : RunState :=
  ⟨evss.map (fun evs => ⟨evs, false⟩), [], false, false⟩

/-- Small-step semantics of the aggregation pipeline of `main` (lines
58-66 of the cpu script, 87-101 of the gpu script), embedding the anyio
task-group and memory-object-stream behaviour:

* `emit`: a live task sends its next record; the stream has buffer size 0,
  so the send rendezvouses with the consumer, which appends the record to
  `consumed`.  Possible only while no failure has cancelled the scope and
  the consumer is still iterating.
* `tfail`: a live task raises; the task terminates (closing its stream
  clone) and the task group's scope becomes cancelled (`failed`).
* `cancel`: once `failed`, any live task can be cancelled at its next
  suspension point; it terminates, closing its clone, without sending its
  remaining events.
* `finish`: a live task with no remaining events returns normally.
* `close`: when every task has terminated every clone of the send stream
  is closed, so the consumer's `async for` observes end-of-stream and the
  run completes; this requires that no task raised (otherwise the consumer
  is cancelled rather than seeing a closed stream). -/
inductive Step : RunState → RunState → Prop where
  | emit (l₁ l₂ : List TaskSt) (p : Pricing) (rest : List Ev) (c : List Pricing) :
      Step ⟨l₁ ++ ⟨Ev.price p :: rest, false⟩ :: l₂, c, false, false⟩
           ⟨l₁ ++ ⟨rest, false⟩ :: l₂, c ++ [p], false, false⟩
  | tfail (l₁ l₂ : List TaskSt) (rest : List Ev) (c : List Pricing) (f : Bool) :
      Step ⟨l₁ ++ ⟨Ev.fetchErr :: rest, false⟩ :: l₂, c, f, false⟩
           ⟨l₁ ++ ⟨[], true⟩ :: l₂, c, true, false⟩
  | cancel (l₁ l₂ : List TaskSt) (evs : List Ev) (c : List Pricing) :
      Step ⟨l₁ ++ ⟨evs, false⟩ :: l₂, c, true, false⟩
           ⟨l₁ ++ ⟨[], true⟩ :: l₂, c, true, false⟩
  | finish (l₁ l₂ : List TaskSt) (c : List Pricing) (f : Bool) :
      Step ⟨l₁ ++ ⟨[], false⟩ :: l₂, c, f, false⟩
           ⟨l₁ ++ ⟨[], true⟩ :: l₂, c, f, false⟩
  | close (ts : List TaskSt) (c : List Pricing) :
      (∀ t ∈ ts, t.done = true) →
      Step ⟨ts, c, false, false⟩ ⟨ts, c, false, true⟩

/-- Zero or more pipeline steps. -/
abbrev Steps : RunState → RunState → Prop :=
  Relation.ReflTransGen Step

/-- Multiset of records carried by an event sequence. -/
def recsOf : List Ev → Multiset Pricing
  | [] => 0
  | Ev.price p :: rest => p ::ₘ recsOf rest
  | Ev.fetchErr :: rest => recsOf rest

/-- Multiset of all records carried by a family of event sequences. -/
def allRecs (evss : List (List Ev)) : Multiset Pricing :=
  (evss.map recsOf).sum

/-- Multiset of records still pending in a task list. -/
def pendingRecs (ts : List TaskSt) : Multiset Pricing :=
  (ts.map (fun t => recsOf t.pending)).sum

/-- A record from a healthy region of the flat (cpu) pipeline; its price
1.00 is below the flat ceiling 1.2, so it would be emitted if delivered. -/
def rHealthy : Pricing := ⟨"c8g.48xlarge", "use1-az1", 1⟩

/-- Record produced by a fast region in the slow-region scenario. -/
def r6fast : Pricing := ⟨"c8g.48xlarge", "use1-az4", 1⟩

/-- Record produced by an artificially slow region in the slow-region
scenario. -/
def r6slow : Pricing := ⟨"c8g.metal-48xl", "use1-az5", 11/10⟩

/-- A gpu-pipeline record whose classification succeeds and accepts
(G6E family, 1 GPU, price 0.1 ≤ 0.49). -/
def ra9 : Pricing := ⟨"g6e.xlarge", "use1-az6", 1/10⟩

/-- A second accepted gpu-pipeline record (G6E family, 1 GPU,
price 0.4 ≤ 0.49). -/
def rb9 : Pricing := ⟨"g6e.2xlarge", "use1-az7", 2/5⟩

/-- A gpu-pipeline record whose size is not in the `gpu_count` table, so
classifying it raises `ValueError`. -/
def bad9 : Pricing := ⟨"g5.oddsize", "use1-az8", 0⟩

/-- A gpu-pipeline record that classifies successfully and is accepted
(G6E family, 1 GPU, price 0.3 ≤ 0.49). -/
def good9 : Pricing := ⟨"g6e.4xlarge", "use1-az9", 3/10⟩

/-- Run invariant of the aggregation pipeline: a terminated task has no
pending events; while no task has raised, the records consumed so far
together with the records still pending are exactly the records of the
initial event sequences; and a closed stream implies a failure-free run
in which every task has terminated. -/
def RunInv (evss : List (List Ev)) (s : RunState) : Prop :=
  (∀ t ∈ s.tasks, t.done = true → t.pending = [])
  ∧ (s.failed = false → (s.consumed : Multiset Pricing) + pendingRecs s.tasks = allRecs evss)
  ∧ (s.closed = true → s.failed = false ∧ ∀ t ∈ s.tasks, t.done = true)


theorem cpuConsume_eq_filter (ps : List Pricing) : cpuConsume ps = ps.filter cpuAccept := by
  induction ps with
  | nil => rfl
  | cons p rest ih => simp [cpuConsume, List.filter_cons, ih]

theorem splitOnChar_not_mem (sep : Char) (l : List Char) (h : sep ∉ l) :
    splitOnChar sep l = [l] := by
  induction l with
  | nil => rfl
  | cons c cs ih =>
    have hne : c ≠ sep := fun hc => h (hc ▸ List.mem_cons_self c cs)
    have hcs : sep ∉ cs := fun hc => h (List.mem_cons_of_mem c hc)
    simp [splitOnChar, hne, ih hcs]

/-- C10: in the per-unit scaled (gpu) pipeline, a record whose
`instance_type` contains no `"."` separator makes `instance_size` — and
therefore `gpu_count` — fail with the out-of-range `IndexError` from
`split(".")[1]`, not with the unrecognized-size `ValueError`: the size
lookup is never reached. -/
theorem no_dot_index_error (p : Pricing) (h : '.' ∉ p.instance_type.data) :
    p.instance_size = Except.error PyErr.indexError
    ∧ p.gpu_count = Except.error PyErr.indexError := by
  have hs : pySplit '.' p.instance_type = [String.mk p.instance_type.data] := by
    rw [pySplit, splitOnChar_not_mem '.' p.instance_type.data h]
    rfl
  have h1 : p.instance_size = Except.error PyErr.indexError := by
    rw [Pricing.instance_size, hs]
    rfl
  exact ⟨h1, by rw [Pricing.gpu_count, h1]⟩

/-- Witness for `no_dot_index_error` at the concrete dotless instance
type `"g5"`. -/
theorem no_dot_index_error_witness :
    Pricing.instance_size ⟨"g5", "z", 0⟩ = Except.error PyErr.indexError
    ∧ Pricing.gpu_count ⟨"g5", "z", 0⟩ = Except.error PyErr.indexError :=
  no_dot_index_error ⟨"g5", "z", 0⟩ (by decide)

/-- C2: in the flat-policy (cpu) pipeline the ceiling is the constant 1.2
for every record: a record of the aggregated stream is emitted iff its
spot price is at most 6/5, the decision depends only on `spot_price`
(never on instance type, zone, or anything derived), the comparison is
inclusive, a record priced 1.00 is accepted and one priced 1.25 is
rejected. -/
theorem cpu_flat_accept (ps : List Pricing) (p p₁ p₂ : Pricing)
    (hpp : p₁.spot_price = p₂.spot_price) :
    (p ∈ cpuConsume ps ↔ p ∈ ps ∧ p.spot_price ≤ 6/5)
    ∧ cpuAccept p₁ = cpuAccept p₂
    ∧ cpuAccept ⟨"X.large", "z", 1⟩ = true
    ∧ cpuAccept ⟨"X.large", "z", 5/4⟩ = false
    ∧ cpuAccept ⟨"X.large", "z", 6/5⟩ = true := by
  refine ⟨?_, ?_, ?_, ?_, ?_⟩
  · rw [cpuConsume_eq_filter, List.mem_filter]
    simp [cpuAccept, MAX_PRICE]
  · simp [cpuAccept, hpp]
  · norm_num [cpuAccept, MAX_PRICE]
  · norm_num [cpuAccept, MAX_PRICE]
  · norm_num [cpuAccept, MAX_PRICE]

/-- Witness for `cpu_flat_accept` on a concrete stream and a concrete
pair of records that differ in everything but the price. -/
theorem cpu_flat_accept_witness :
    (rHealthy ∈ cpuConsume [rHealthy] ↔ rHealthy ∈ [rHealthy] ∧ rHealthy.spot_price ≤ 6/5)
    ∧ cpuAccept ⟨"a.large", "z1", 1⟩ = cpuAccept ⟨"b.medium", "z2", 1⟩
    ∧ cpuAccept ⟨"X.large", "z", 1⟩ = true
    ∧ cpuAccept ⟨"X.large", "z", 5/4⟩ = false
    ∧ cpuAccept ⟨"X.large", "z", 6/5⟩ = true :=
  cpu_flat_accept [rHealthy] rHealthy ⟨"a.large", "z1", 1⟩ ⟨"b.medium", "z2", 1⟩ rfl

/-- C1: for a record whose derived attributes resolve, the effective
ceiling is `gpu_count × 0.49`, divided
by 2.35 for the G5 family and unadjusted for G6E, and the record is
accepted iff `spot_price ≤ ceiling`; concretely, a G5 record of size
`"48xlarge"` (8 GPUs, ceiling `8 × 0.49 / 2.35`) is accepted at price
1.60 and rejected at price 1.70. -/
theorem gpu_perUnit_ceiling_accept (p : Pricing) (c : ℕ) (f : InstanceFamily)
    (hc : p.gpu_count = Except.ok c) (hf : p.instance_family = Except.ok f) :
    gpuMaxPrice p =
      Except.ok (if f = InstanceFamily.g5 then (c : ℚ) * (49/100) / (47/20) else (c : ℚ) * (49/100))
    ∧ gpuAccept p =
      Except.ok (decide (p.spot_price ≤
        if f = InstanceFamily.g5 then (c : ℚ) * (49/100) / (47/20) else (c : ℚ) * (49/100)))
    ∧ gpuAccept ⟨"g5.48xlarge", "use1-az1", 8/5⟩ = Except.ok true
    ∧ gpuAccept ⟨"g5.48xlarge", "use1-az1", 17/10⟩ = Except.ok false := by
  have hmax : gpuMaxPrice p =
      Except.ok (if f = InstanceFamily.g5 then (c : ℚ) * (49/100) / (47/20) else (c : ℚ) * (49/100)) := by
    cases f <;>
      simp [gpuMaxPrice, hc, hf, MAX_PRICE_PER_GPU_HOUR, G6E_G5_PERF_RATIO]
  refine ⟨hmax, by simp [gpuAccept, hmax], ?_, ?_⟩
  · have h8 : Pricing.gpu_count ⟨"g5.48xlarge", "use1-az1", 8/5⟩ = .ok 8 := by decide
    have hg5 : Pricing.instance_family ⟨"g5.48xlarge", "use1-az1", 8/5⟩ = .ok .g5 := by decide
    simp [gpuAccept, gpuMaxPrice, h8, hg5, MAX_PRICE_PER_GPU_HOUR, G6E_G5_PERF_RATIO]
    norm_num
  · have h8 : Pricing.gpu_count ⟨"g5.48xlarge", "use1-az1", 17/10⟩ = .ok 8 := by decide
    have hg5 : Pricing.instance_family ⟨"g5.48xlarge", "use1-az1", 17/10⟩ = .ok .g5 := by decide
    simp [gpuAccept, gpuMaxPrice, h8, hg5, MAX_PRICE_PER_GPU_HOUR, G6E_G5_PERF_RATIO]
    norm_num

/-- Witness for `gpu_perUnit_ceiling_accept` at the G5/48xlarge record of
the scenario. -/
theorem gpu_perUnit_ceiling_accept_witness :
    gpuMaxPrice ⟨"g5.48xlarge", "use1-az1", 8/5⟩ =
      Except.ok (if InstanceFamily.g5 = InstanceFamily.g5 then (8 : ℚ) * (49/100) / (47/20) else (8 : ℚ) * (49/100))
    ∧ gpuAccept ⟨"g5.48xlarge", "use1-az1", 8/5⟩ = Except.ok true :=
  ⟨(gpu_perUnit_ceiling_accept ⟨"g5.48xlarge", "use1-az1", 8/5⟩ 8 .g5 (by decide) (by decide)).1,
   (gpu_perUnit_ceiling_accept ⟨"g5.48xlarge", "use1-az1", 8/5⟩ 8 .g5 (by decide) (by decide)).2.2.1⟩

/-- Counterexample to C3's pipeline-isolation clause: a record with the
unrecognized size `"weird"` raises `ValueError` inside the consumer loop,
and the exception is uncaught — a sibling record of the same stream that
is emitted when it stands alone is lost when it follows the bad record,
so the error is fatal to the pipeline, not to the record only. -/
theorem gpu_count_pipeline_fatal_cx :
    gpuConsume [⟨"g6e.weird", "z", 0⟩, rb9] = ([], some (PyErr.valueError "g6e.weird"))
    ∧ gpuConsume [rb9] = ([rb9], none) := by
  constructor
  · have hbad : gpuAccept ⟨"g6e.weird", "z", 0⟩ = .error (.valueError "g6e.weird") := by decide
    simp [gpuConsume, hbad]
  · have hcount : rb9.gpu_count = .ok 1 := by decide
    have hfam : rb9.instance_family = .ok .g6e := by decide
    have hacc : gpuAccept rb9 = .ok true := by
      simp [gpuAccept, gpuMaxPrice, hcount, hfam, MAX_PRICE_PER_GPU_HOUR]
      norm_num [rb9]
    simp [gpuConsume, hacc]

/-- C3 as amended: `gpu_count` maps sizes to unit counts exactly by the
fixed table (`{xlarge,2xlarge,4xlarge,8xlarge,16xlarge}→1`,
`{12xlarge,24xlarge}→4`, `{48xlarge}→8`), and any other size raises
`ValueError(instance_type)` — but that error is fatal to the whole
consumer loop (the pipeline), not to the record only. -/
theorem gpu_count_table (p : Pricing) (s : String) (hs : p.instance_size = Except.ok s) :
    ((s = "xlarge" ∨ s = "2xlarge" ∨ s = "4xlarge" ∨ s = "8xlarge" ∨ s = "16xlarge") →
      p.gpu_count = Except.ok 1)
    ∧ ((s = "12xlarge" ∨ s = "24xlarge") → p.gpu_count = Except.ok 4)
    ∧ (s = "48xlarge" → p.gpu_count = Except.ok 8)
    ∧ (s ∉ (["xlarge", "2xlarge", "4xlarge", "8xlarge", "16xlarge",
             "12xlarge", "24xlarge", "48xlarge"] : List String) →
      p.gpu_count = Except.error (PyErr.valueError p.instance_type))
    ∧ gpuConsume [⟨"g6e.weird", "z", 0⟩, rb9] = ([], some (PyErr.valueError "g6e.weird")) := by
  refine ⟨?_, ?_, ?_, ?_, ?_⟩
  · rintro (rfl | rfl | rfl | rfl | rfl) <;> simp [Pricing.gpu_count, hs]
  · rintro (rfl | rfl) <;> simp [Pricing.gpu_count, hs]
  · rintro rfl
    simp [Pricing.gpu_count, hs]
  · intro hnot
    simp only [List.mem_cons, List.not_mem_nil, or_false, not_or] at hnot
    obtain ⟨n1, n2, n3, n4, n5, n6, n7, n8⟩ := hnot
    simp [Pricing.gpu_count, hs, n1, n2, n3, n4, n5, n6, n7, n8]
  · have hbad : gpuAccept ⟨"g6e.weird", "z", 0⟩ = .error (.valueError "g6e.weird") := by decide
    simp [gpuConsume, hbad]

/-- Witness for `gpu_count_table` at the concrete size `"48xlarge"`. -/
theorem gpu_count_table_witness :
    Pricing.gpu_count ⟨"g5.48xlarge", "use1-az1", 8/5⟩ = Except.ok 8 :=
  (gpu_count_table ⟨"g5.48xlarge", "use1-az1", 8/5⟩ "48xlarge" (by decide)).2.2.1 rfl

/-- Counterexample to C4: for the spec's own scenario record with
unrecognized size `"X.weird"`, the record is not "treated as rejected
with a warning while the run completes": the `ValueError` escapes the
consumer loop, and a sibling record that is emitted when processed alone
is lost when it arrives after the bad record. -/
theorem gpu_classification_error_crash_cx :
    gpuConsume [⟨"X.weird", "z", 0⟩, ra9] = ([], some (PyErr.valueError "X.weird"))
    ∧ gpuConsume [ra9] = ([ra9], none) := by
  constructor
  · have hbad : gpuAccept ⟨"X.weird", "z", 0⟩ = .error (.valueError "X.weird") := by decide
    simp [gpuConsume, hbad]
  · have hcount : ra9.gpu_count = .ok 1 := by decide
    have hfam : ra9.instance_family = .ok .g6e := by decide
    have hacc : gpuAccept ra9 = .ok true := by
      simp [gpuAccept, gpuMaxPrice, hcount, hfam, MAX_PRICE_PER_GPU_HOUR]
      norm_num [ra9]
    simp [gpuConsume, hacc]

/-- C4 as amended: a record whose derived-attribute computation raises an
unrecognized-family or unrecognized-size error makes the consumer loop
stop at that record with the exception escaping: nothing is emitted from
that point on and no sibling record after it is processed (there is no
warning list and the run does not complete normally).  In particular the
scenario record `"X.weird"` raises `ValueError`. -/
theorem gpu_classify_error_aborts (p : Pricing) (e : PyErr) (rest : List Pricing)
    (h : gpuAccept p = Except.error e) :
    gpuConsume (p :: rest) = ([], some e)
    ∧ gpuAccept ⟨"X.weird", "z", 0⟩ = Except.error (PyErr.valueError "X.weird") := by
  exact ⟨by simp [gpuConsume, h], by decide⟩

/-- Witness for `gpu_classify_error_aborts` at the `"X.weird"` record
followed by a healthy sibling. -/
theorem gpu_classify_error_aborts_witness :
    gpuConsume [⟨"X.weird", "z", 0⟩, ra9] = ([], some (PyErr.valueError "X.weird"))
    ∧ gpuAccept ⟨"X.weird", "z", 0⟩ = Except.error (PyErr.valueError "X.weird") :=
  gpu_classify_error_aborts ⟨"X.weird", "z", 0⟩ (PyErr.valueError "X.weird") [ra9] (by decide)

/-- Counterexample to C7: `from_dict` performs no sign validation, so the
provider string `"-1"` is parsed into a record whose `spot_price` is
negative, refuting "the resulting spotPrice is non-negative"; and the
parse happens inside the un-guarded decode loop, so a malformed string
aborts the page instead of being a recoverable data error. -/
theorem spot_price_negative_cx :
    Pricing.from_dict ⟨some "c8g.48xlarge", some "use1-az1", some "-1"⟩ =
      Except.ok ⟨"c8g.48xlarge", "use1-az1", -1⟩
    ∧ ((-1 : ℚ) < 0)
    ∧ decodePage [⟨some "c8g.48xlarge", some "use1-az1", some "oops"⟩] =
      ([], some (PyErr.valueError "oops")) := by
  refine ⟨?_, by norm_num, ?_⟩
  · have hp : pyFloat "-1" = .ok (-1) := by
      have h : "-1".data = ['-', '1'] := by decide
      simp +decide [pyFloat, pyFloatDigits, digitsVal, isDigitChar, h]
    simp [Pricing.from_dict, hp]
  · have hp : pyFloat "oops" = .error (.valueError "oops") := by decide
    simp [decodePage, Pricing.from_dict, hp]

/-- C7 as amended: `spot_price` is parsed by Python `float()` from the
provider string with no further validation: a parse failure raises
`ValueError`, which escapes `from_dict` and aborts the decode loop (it is
an uncaught exception, not a recoverable data error), and a negative
string such as `"-1"` is accepted, producing a negative `spot_price`. -/
theorem spot_price_parse_behavior (it z sp : String) (e : PyErr)
    (hp : pyFloat sp = Except.error e) :
    Pricing.from_dict ⟨some it, some z, some sp⟩ = Except.error e
    ∧ decodePage [⟨some it, some z, some sp⟩] = ([], some e)
    ∧ Pricing.from_dict ⟨some "c8g.48xlarge", some "use1-az1", some "-1"⟩ =
      Except.ok ⟨"c8g.48xlarge", "use1-az1", -1⟩ := by
  have h1 : Pricing.from_dict ⟨some it, some z, some sp⟩ = Except.error e := by
    simp [Pricing.from_dict, hp]
  refine ⟨h1, by simp [decodePage, h1], ?_⟩
  have hneg : pyFloat "-1" = .ok (-1) := by
    have h : "-1".data = ['-', '1'] := by decide
    simp +decide [pyFloat, pyFloatDigits, digitsVal, isDigitChar, h]
  simp [Pricing.from_dict, hneg]

/-- Witness for `spot_price_parse_behavior` at the malformed price string
`"oops"`. -/
theorem spot_price_parse_behavior_witness :
    Pricing.from_dict ⟨some "c8g.48xlarge", some "use1-az2", some "oops"⟩ =
      Except.error (PyErr.valueError "oops")
    ∧ decodePage [⟨some "c8g.48xlarge", some "use1-az2", some "oops"⟩] =
      ([], some (PyErr.valueError "oops"))
    ∧ Pricing.from_dict ⟨some "c8g.48xlarge", some "use1-az1", some "-1"⟩ =
      Except.ok ⟨"c8g.48xlarge", "use1-az1", -1⟩ :=
  spot_price_parse_behavior "c8g.48xlarge" "use1-az2" "oops" (PyErr.valueError "oops") (by decide)

/-- Counterexample to C8: in a page whose second raw record lacks
`InstanceType`, the `KeyError` raised by `data["InstanceType"]` aborts
the decode loop: the record is not skipped with a warning, and the third
(well-formed) record of the same page is never decoded. -/
theorem missing_field_aborts_page_cx :
    decodePage [⟨some "c8g.48xlarge", some "use1-az1", some "1.0"⟩,
                ⟨none, some "use1-az1", some "1.0"⟩,
                ⟨some "c8g.48xlarge", some "use1-az2", some "1.1"⟩] =
      ([⟨"c8g.48xlarge", "use1-az1", 1⟩], some (PyErr.keyError "InstanceType")) := by
  have hp : pyFloat "1.0" = .ok 1 := by
    have h : "1.0".data = ['1', '.', '0'] := by decide
    simp +decide [pyFloat, pyFloatDigits, digitsVal, isDigitChar, h]
  have h1 : Pricing.from_dict ⟨some "c8g.48xlarge", some "use1-az1", some "1.0"⟩ =
      Except.ok ⟨"c8g.48xlarge", "use1-az1", 1⟩ := by
    simp [Pricing.from_dict, hp]
  have h2 : Pricing.from_dict ⟨none, some "use1-az1", some "1.0"⟩ =
      Except.error (PyErr.keyError "InstanceType") := by
    simp [Pricing.from_dict]
  simp [decodePage, h1, h2]

/-- C8 as amended: a raw record missing a required field makes
`from_dict` raise `KeyError` for the first missing key in the order
`InstanceType`, `AvailabilityZoneId`, `SpotPrice`; the exception aborts
the decode loop at that record, so the rest of the page is not decoded —
the absence is a page-level (indeed task-level) failure, not a
skip-with-warning. -/
theorem missing_field_keyerror_aborts (d : SpotPriceDict) (e : PyErr)
    (rest : List SpotPriceDict) (h : Pricing.from_dict d = Except.error e) :
    decodePage (d :: rest) = ([], some e)
    ∧ Pricing.from_dict ⟨none, some "z", some "1.0"⟩ = Except.error (PyErr.keyError "InstanceType")
    ∧ Pricing.from_dict ⟨some "c8g.48xlarge", none, some "1.0"⟩ =
      Except.error (PyErr.keyError "AvailabilityZoneId")
    ∧ Pricing.from_dict ⟨some "c8g.48xlarge", some "z", none⟩ =
      Except.error (PyErr.keyError "SpotPrice") := by
  refine ⟨by simp [decodePage, h], by simp [Pricing.from_dict], by simp [Pricing.from_dict],
    by simp [Pricing.from_dict]⟩

/-- Witness for `missing_field_keyerror_aborts` at a record missing
`InstanceType` followed by a well-formed sibling. -/
theorem missing_field_keyerror_aborts_witness :
    decodePage [⟨none, some "use1-az1", some "1.0"⟩,
                ⟨some "c8g.48xlarge", some "use1-az2", some "1.1"⟩] =
      ([], some (PyErr.keyError "InstanceType"))
    ∧ Pricing.from_dict ⟨none, some "z", some "1.0"⟩ = Except.error (PyErr.keyError "InstanceType")
    ∧ Pricing.from_dict ⟨some "c8g.48xlarge", none, some "1.0"⟩ =
      Except.error (PyErr.keyError "AvailabilityZoneId")
    ∧ Pricing.from_dict ⟨some "c8g.48xlarge", some "z", none⟩ =
      Except.error (PyErr.keyError "SpotPrice") :=
  missing_field_keyerror_aborts ⟨none, some "use1-az1", some "1.0"⟩
    (PyErr.keyError "InstanceType") [⟨some "c8g.48xlarge", some "use1-az2", some "1.1"⟩]
    (by simp [Pricing.from_dict])

theorem pendingRecs_append (l₁ l₂ : List TaskSt) (t : TaskSt) :
    pendingRecs (l₁ ++ t :: l₂) = pendingRecs l₁ + (recsOf t.pending + pendingRecs l₂) := by
  simp [pendingRecs, List.sum_append]

theorem pendingRecs_zero (ts : List TaskSt) (h : ∀ t ∈ ts, t.pending = []) :
    pendingRecs ts = 0 := by
  rw [pendingRecs]
  apply List.sum_eq_zero
  intro x hx
  rcases List.mem_map.mp hx with ⟨t, ht, rfl⟩
  rw [h t ht]
  rfl

theorem runInv_init (evss : List (List Ev)) : RunInv evss (initRun evss) := by
  refine ⟨?_, ?_, ?_⟩
  · intro t ht hd
    simp only [initRun] at ht
    rcases List.mem_map.mp ht with ⟨evs, _, rfl⟩
    simp at hd
  · intro _
    simp [initRun, pendingRecs, allRecs, List.map_map]
    rfl
  · intro h
    simp [initRun] at h

theorem runInv_step {evss : List (List Ev)} {s s' : RunState} (hst : Step s s')
    (hi : RunInv evss s) : RunInv evss s' := by
  obtain ⟨h1, h2, h3⟩ := hi
  cases hst with
  | emit l₁ l₂ p rest c =>
    refine ⟨?_, ?_, ?_⟩
    · intro t ht hd
      rcases List.mem_append.mp ht with ht | ht
      · exact h1 t (List.mem_append.mpr (Or.inl ht)) hd
      · rcases List.mem_cons.mp ht with rfl | ht
        · simp at hd
        · exact h1 t (List.mem_append.mpr (Or.inr (List.mem_cons_of_mem _ ht))) hd
    · intro _
      have h2' := h2 rfl
      rw [pendingRecs_append] at h2'
      simp only [recsOf] at h2'
      rw [pendingRecs_append]
      rw [show ((c ++ [p] : List Pricing) : Multiset Pricing) = ↑c + {p} from rfl]
      rw [← Multiset.singleton_add] at h2'
      rw [← h2']
      abel
    · intro hcl
      simp at hcl
  | tfail l₁ l₂ rest c f =>
    refine ⟨?_, ?_, ?_⟩
    · intro t ht hd
      rcases List.mem_append.mp ht with ht | ht
      · exact h1 t (List.mem_append.mpr (Or.inl ht)) hd
      · rcases List.mem_cons.mp ht with rfl | ht
        · rfl
        · exact h1 t (List.mem_append.mpr (Or.inr (List.mem_cons_of_mem _ ht))) hd
    · intro hf
      simp at hf
    · intro hcl
      simp at hcl
  | cancel l₁ l₂ evs c =>
    refine ⟨?_, ?_, ?_⟩
    · intro t ht hd
      rcases List.mem_append.mp ht with ht | ht
      · exact h1 t (List.mem_append.mpr (Or.inl ht)) hd
      · rcases List.mem_cons.mp ht with rfl | ht
        · rfl
        · exact h1 t (List.mem_append.mpr (Or.inr (List.mem_cons_of_mem _ ht))) hd
    · intro hf
      simp at hf
    · intro hcl
      simp at hcl
  | finish l₁ l₂ c f =>
    refine ⟨?_, ?_, ?_⟩
    · intro t ht hd
      rcases List.mem_append.mp ht with ht | ht
      · exact h1 t (List.mem_append.mpr (Or.inl ht)) hd
      · rcases List.mem_cons.mp ht with rfl | ht
        · rfl
        · exact h1 t (List.mem_append.mpr (Or.inr (List.mem_cons_of_mem _ ht))) hd
    · intro hf
      have h2' := h2 hf
      rw [pendingRecs_append] at h2'
      rw [pendingRecs_append]
      exact h2'
    · intro hcl
      simp at hcl
  | close ts c hall =>
    exact ⟨h1, h2, fun _ => ⟨rfl, hall⟩⟩

theorem runInv_steps {evss : List (List Ev)} {s s' : RunState} (h : Steps s s')
    (hi : RunInv evss s) : RunInv evss s' := by
  induction h with
  | refl => exact hi
  | tail _ hstep ih => exact runInv_step hstep ih

/-- In a run that reaches a closed state, no task ever failed, every task
terminated, and the consumer received exactly the records of the initial
event sequences (up to order). -/
theorem closed_run_consumed (evss : List (List Ev)) (s : RunState)
    (h : Steps (initRun evss) s) (hc : s.closed = true) :
    (s.consumed : Multiset Pricing) = allRecs evss ∧ ∀ t ∈ s.tasks, t.done = true := by
  obtain ⟨h1, h2, h3⟩ := runInv_steps h (runInv_init evss)
  obtain ⟨hf, hdone⟩ := h3 hc
  refine ⟨?_, hdone⟩
  have h2' := h2 hf
  rw [pendingRecs_zero s.tasks (fun t ht => h1 t ht (hdone t ht)), add_zero] at h2'
  exact h2'

/-- C6: the consumer's stream reaches its end-of-stream (closes) only
after every spawned fetch task has terminated — never earlier — and at
closure the consumer has received every record of every region, so a slow
region's records appear on the stream before it closes; moreover, once
all tasks have terminated in a failure-free run, the close transition is
enabled. -/
theorem stream_close_after_all_tasks (evss : List (List Ev)) (s : RunState)
    (h : Steps (initRun evss) s) (hc : s.closed = true) :
    (∀ t ∈ s.tasks, t.done = true)
    ∧ (s.consumed : Multiset Pricing) = allRecs evss
    ∧ ∀ (ts : List TaskSt) (c : List Pricing), (∀ t ∈ ts, t.done = true) →
        Step ⟨ts, c, false, false⟩ ⟨ts, c, false, true⟩ :=
  ⟨(closed_run_consumed evss s h hc).2, (closed_run_consumed evss s h hc).1,
   fun ts c hall => Step.close ts c hall⟩

theorem steps_slow_region : Steps (initRun [[Ev.price r6fast], [Ev.price r6slow]])
    ⟨[⟨[], true⟩, ⟨[], true⟩], [r6fast, r6slow], false, true⟩ := by
  have h1 : Step (initRun [[Ev.price r6fast], [Ev.price r6slow]])
      ⟨[⟨[], false⟩, ⟨[Ev.price r6slow], false⟩], [r6fast], false, false⟩ :=
    Step.emit [] [⟨[Ev.price r6slow], false⟩] r6fast [] []
  have h2 : Step ⟨[⟨[], false⟩, ⟨[Ev.price r6slow], false⟩], [r6fast], false, false⟩
      ⟨[⟨[], true⟩, ⟨[Ev.price r6slow], false⟩], [r6fast], false, false⟩ :=
    Step.finish [] [⟨[Ev.price r6slow], false⟩] [r6fast] false
  have h3 : Step ⟨[⟨[], true⟩, ⟨[Ev.price r6slow], false⟩], [r6fast], false, false⟩
      ⟨[⟨[], true⟩, ⟨[], false⟩], [r6fast, r6slow], false, false⟩ :=
    Step.emit [⟨[], true⟩] [] r6slow [] [r6fast]
  have h4 : Step ⟨[⟨[], true⟩, ⟨[], false⟩], [r6fast, r6slow], false, false⟩
      ⟨[⟨[], true⟩, ⟨[], true⟩], [r6fast, r6slow], false, false⟩ :=
    Step.finish [⟨[], true⟩] [] [r6fast, r6slow] false
  have h5 : Step ⟨[⟨[], true⟩, ⟨[], true⟩], [r6fast, r6slow], false, false⟩
      ⟨[⟨[], true⟩, ⟨[], true⟩], [r6fast, r6slow], false, true⟩ :=
    Step.close [⟨[], true⟩, ⟨[], true⟩] [r6fast, r6slow] (by decide)
  exact Relation.ReflTransGen.tail
    (Relation.ReflTransGen.tail
      (Relation.ReflTransGen.tail
        (Relation.ReflTransGen.tail (Relation.ReflTransGen.single h1) h2) h3) h4) h5

/-- Witness for `stream_close_after_all_tasks`: a concrete run with a
fast region and a slow region whose record is emitted after the fast
region already finished; the closed state contains both records. -/
theorem stream_close_after_all_tasks_witness :
    (∀ t ∈ [(⟨[], true⟩ : TaskSt), ⟨[], true⟩], t.done = true)
    ∧ (([r6fast, r6slow] : List Pricing) : Multiset Pricing) =
        allRecs [[Ev.price r6fast], [Ev.price r6slow]]
    ∧ ∀ (ts : List TaskSt) (c : List Pricing), (∀ t ∈ ts, t.done = true) →
        Step ⟨ts, c, false, false⟩ ⟨ts, c, false, true⟩ :=
  stream_close_after_all_tasks [[Ev.price r6fast], [Ev.price r6slow]]
    ⟨[⟨[], true⟩, ⟨[], true⟩], [r6fast, r6slow], false, true⟩ steps_slow_region rfl

theorem steps_failed_run : Steps (initRun [[Ev.price rHealthy], [Ev.fetchErr]])
    ⟨[⟨[], true⟩, ⟨[], true⟩], [], true, false⟩ := by
  have h1 : Step (initRun [[Ev.price rHealthy], [Ev.fetchErr]])
      ⟨[⟨[Ev.price rHealthy], false⟩, ⟨[], true⟩], [], true, false⟩ :=
    Step.tfail [⟨[Ev.price rHealthy], false⟩] [] [] [] false
  have h2 : Step ⟨[⟨[Ev.price rHealthy], false⟩, ⟨[], true⟩], [], true, false⟩
      ⟨[⟨[], true⟩, ⟨[], true⟩], [], true, false⟩ :=
    Step.cancel [] [⟨[], true⟩] [Ev.price rHealthy] []
  exact Relation.ReflTransGen.tail (Relation.ReflTransGen.single h1) h2

theorem steps_healthy_run : Steps (initRun [[Ev.price rHealthy]])
    ⟨[⟨[], true⟩], [rHealthy], false, true⟩ := by
  have h1 : Step (initRun [[Ev.price rHealthy]])
      ⟨[⟨[], false⟩], [rHealthy], false, false⟩ :=
    Step.emit [] [] rHealthy [] []
  have h2 : Step ⟨[⟨[], false⟩], [rHealthy], false, false⟩
      ⟨[⟨[], true⟩], [rHealthy], false, false⟩ :=
    Step.finish [] [] [rHealthy] false
  have h3 : Step ⟨[⟨[], true⟩], [rHealthy], false, false⟩
      ⟨[⟨[], true⟩], [rHealthy], false, true⟩ :=
    Step.close [⟨[], true⟩] [rHealthy] (by decide)
  exact Relation.ReflTransGen.tail (Relation.ReflTransGen.tail (Relation.ReflTransGen.single h1) h2) h3

/-- Counterexample to C5: an execution in which one region's fetch task
raises a `FetchError` before the healthy region has sent its record.
Under anyio task-group semantics the failure cancels the sibling task, so
the run terminates (all tasks done) with the healthy region's record
never delivered (`consumed = []`) and the error propagating
(`failed = true`, the stream never closes) — the record would have been
accepted and emitted, as the solo healthy run shows.  No warning list
exists anywhere in the code. -/
theorem region_fetch_error_cancels_cx :
    Steps (initRun [[Ev.price rHealthy], [Ev.fetchErr]])
      ⟨[⟨[], true⟩, ⟨[], true⟩], [], true, false⟩
    ∧ cpuAccept rHealthy = true
    ∧ Steps (initRun [[Ev.price rHealthy]]) ⟨[⟨[], true⟩], [rHealthy], false, true⟩ :=
  ⟨steps_failed_run, by norm_num [cpuAccept, MAX_PRICE, rHealthy], steps_healthy_run⟩

/-- C5 as amended: once some region's fetch task has raised, the
cancelled scope delivers nothing further to the consumer: along any
continuation of the run, `consumed` is frozen, the failure persists, and
the stream's closed flag cannot change (in particular a failed run never
closes normally) — the error propagates out of `main` instead of being
collected into a warning list. -/
theorem region_fetch_error_freezes (s s' : RunState) (h : Steps s s') (hf : s.failed = true) :
    s'.consumed = s.consumed ∧ s'.failed = true ∧ s'.closed = s.closed := by
  induction h with
  | refl => exact ⟨rfl, hf, rfl⟩
  | tail hs hstep ih =>
    obtain ⟨hc, hf', hcl⟩ := ih
    cases hstep with
    | emit l₁ l₂ p rest c => simp at hf'
    | tfail l₁ l₂ rest c f => exact ⟨hc, rfl, hcl⟩
    | cancel l₁ l₂ evs c => exact ⟨hc, rfl, hcl⟩
    | finish l₁ l₂ c f => exact ⟨hc, hf', hcl⟩
    | close ts c hall => simp at hf'

/-- Witness for `region_fetch_error_freezes`: the failed state reached
after the fetch error, continued by cancelling the healthy sibling. -/
theorem region_fetch_error_freezes_witness :
    (⟨[⟨[], true⟩, ⟨[], true⟩], [], true, false⟩ : RunState).consumed =
      (⟨[⟨[Ev.price rHealthy], false⟩, ⟨[], true⟩], [], true, false⟩ : RunState).consumed
    ∧ (⟨[⟨[], true⟩, ⟨[], true⟩], [], true, false⟩ : RunState).failed = true
    ∧ (⟨[⟨[], true⟩, ⟨[], true⟩], [], true, false⟩ : RunState).closed =
      (⟨[⟨[Ev.price rHealthy], false⟩, ⟨[], true⟩], [], true, false⟩ : RunState).closed :=
  region_fetch_error_freezes ⟨[⟨[Ev.price rHealthy], false⟩, ⟨[], true⟩], [], true, false⟩
    ⟨[⟨[], true⟩, ⟨[], true⟩], [], true, false⟩
    (Relation.ReflTransGen.single (Step.cancel [] [⟨[], true⟩] [Ev.price rHealthy] [])) rfl

theorem gpuAccept_ra9 : gpuAccept ra9 = Except.ok true := by
  have hcount : ra9.gpu_count = .ok 1 := by decide
  have hfam : ra9.instance_family = .ok .g6e := by decide
  simp [gpuAccept, gpuMaxPrice, hcount, hfam, MAX_PRICE_PER_GPU_HOUR]
  norm_num [ra9]

theorem gpuAccept_rb9 : gpuAccept rb9 = Except.ok true := by
  have hcount : rb9.gpu_count = .ok 1 := by decide
  have hfam : rb9.instance_family = .ok .g6e := by decide
  simp [gpuAccept, gpuMaxPrice, hcount, hfam, MAX_PRICE_PER_GPU_HOUR]
  norm_num [rb9]

theorem gpuAccept_good9 : gpuAccept good9 = Except.ok true := by
  have hcount : good9.gpu_count = .ok 1 := by decide
  have hfam : good9.instance_family = .ok .g6e := by decide
  simp [gpuAccept, gpuMaxPrice, hcount, hfam, MAX_PRICE_PER_GPU_HOUR]
  norm_num [good9]

theorem gpuAccept_bad9 : gpuAccept bad9 = Except.error (PyErr.valueError "g5.oddsize") := by
  decide

/-- When every received record classifies without an exception, the gpu
consumer loop runs to completion and emits exactly the accepted records,
in arrival order. -/
theorem gpuConsume_ok (l : List Pricing) (h : ∀ p ∈ l, ∃ b, gpuAccept p = Except.ok b) :
    gpuConsume l = (l.filter (fun p => decide (gpuAccept p = Except.ok true)), none) := by
  induction l with
  | nil => rfl
  | cons p rest ih =>
    obtain ⟨b, hb⟩ := h p (List.mem_cons_self p rest)
    have ih' := ih (fun q hq => h q (List.mem_cons_of_mem _ hq))
    cases b <;> simp [gpuConsume, hb, ih', List.filter_cons]

/-- Two interleavings of the same per-region record sequences in the
aggregation model: one delivers `bad9` (unrecognized size) before
`good9`, the other after. -/
theorem steps_interleave_bad_first :
    Steps (initRun [[Ev.price bad9], [Ev.price good9]])
      ⟨[⟨[], true⟩, ⟨[], true⟩], [bad9, good9], false, true⟩ := by
  have h1 : Step (initRun [[Ev.price bad9], [Ev.price good9]])
      ⟨[⟨[], false⟩, ⟨[Ev.price good9], false⟩], [bad9], false, false⟩ :=
    Step.emit [] [⟨[Ev.price good9], false⟩] bad9 [] []
  have h2 : Step ⟨[⟨[], false⟩, ⟨[Ev.price good9], false⟩], [bad9], false, false⟩
      ⟨[⟨[], false⟩, ⟨[], false⟩], [bad9, good9], false, false⟩ :=
    Step.emit [⟨[], false⟩] [] good9 [] [bad9]
  have h3 : Step ⟨[⟨[], false⟩, ⟨[], false⟩], [bad9, good9], false, false⟩
      ⟨[⟨[], true⟩, ⟨[], false⟩], [bad9, good9], false, false⟩ :=
    Step.finish [] [⟨[], false⟩] [bad9, good9] false
  have h4 : Step ⟨[⟨[], true⟩, ⟨[], false⟩], [bad9, good9], false, false⟩
      ⟨[⟨[], true⟩, ⟨[], true⟩], [bad9, good9], false, false⟩ :=
    Step.finish [⟨[], true⟩] [] [bad9, good9] false
  have h5 : Step ⟨[⟨[], true⟩, ⟨[], true⟩], [bad9, good9], false, false⟩
      ⟨[⟨[], true⟩, ⟨[], true⟩], [bad9, good9], false, true⟩ :=
    Step.close [⟨[], true⟩, ⟨[], true⟩] [bad9, good9] (by decide)
  exact Relation.ReflTransGen.tail
    (Relation.ReflTransGen.tail
      (Relation.ReflTransGen.tail
        (Relation.ReflTransGen.tail (Relation.ReflTransGen.single h1) h2) h3) h4) h5

theorem steps_interleave_good_first :
    Steps (initRun [[Ev.price bad9], [Ev.price good9]])
      ⟨[⟨[], true⟩, ⟨[], true⟩], [good9, bad9], false, true⟩ := by
  have h1 : Step (initRun [[Ev.price bad9], [Ev.price good9]])
      ⟨[⟨[Ev.price bad9], false⟩, ⟨[], false⟩], [good9], false, false⟩ :=
    Step.emit [⟨[Ev.price bad9], false⟩] [] good9 [] []
  have h2 : Step ⟨[⟨[Ev.price bad9], false⟩, ⟨[], false⟩], [good9], false, false⟩
      ⟨[⟨[], false⟩, ⟨[], false⟩], [good9, bad9], false, false⟩ :=
    Step.emit [] [⟨[], false⟩] bad9 [] [good9]
  have h3 : Step ⟨[⟨[], false⟩, ⟨[], false⟩], [good9, bad9], false, false⟩
      ⟨[⟨[], true⟩, ⟨[], false⟩], [good9, bad9], false, false⟩ :=
    Step.finish [] [⟨[], false⟩] [good9, bad9] false
  have h4 : Step ⟨[⟨[], true⟩, ⟨[], false⟩], [good9, bad9], false, false⟩
      ⟨[⟨[], true⟩, ⟨[], true⟩], [good9, bad9], false, false⟩ :=
    Step.finish [⟨[], true⟩] [] [good9, bad9] false
  have h5 : Step ⟨[⟨[], true⟩, ⟨[], true⟩], [good9, bad9], false, false⟩
      ⟨[⟨[], true⟩, ⟨[], true⟩], [good9, bad9], false, true⟩ :=
    Step.close [⟨[], true⟩, ⟨[], true⟩] [good9, bad9] (by decide)
  exact Relation.ReflTransGen.tail
    (Relation.ReflTransGen.tail
      (Relation.ReflTransGen.tail
        (Relation.ReflTransGen.tail (Relation.ReflTransGen.single h1) h2) h3) h4) h5

/-- Counterexample to C9: interleaving-insensitivity fails on the gpu
pipeline when a record's classification raises.  The same two per-region
sequences, delivered in two different interleavings reached by the
aggregation model, make the consumer emit different multisets of accepted
records: nothing when the bad record arrives first (the exception aborts
the loop immediately), but `good9` when it arrives second. -/
theorem interleaving_accept_multiset_cx :
    Steps (initRun [[Ev.price bad9], [Ev.price good9]])
      ⟨[⟨[], true⟩, ⟨[], true⟩], [bad9, good9], false, true⟩
    ∧ Steps (initRun [[Ev.price bad9], [Ev.price good9]])
      ⟨[⟨[], true⟩, ⟨[], true⟩], [good9, bad9], false, true⟩
    ∧ gpuConsume [bad9, good9] = ([], some (PyErr.valueError "g5.oddsize"))
    ∧ gpuConsume [good9, bad9] = ([good9], some (PyErr.valueError "g5.oddsize"))
    ∧ ([] : List Pricing) ≠ [good9] := by
  refine ⟨steps_interleave_bad_first, steps_interleave_good_first, ?_, ?_, by simp⟩
  · simp [gpuConsume, gpuAccept_bad9]
  · simp [gpuConsume, gpuAccept_good9, gpuAccept_bad9]

/-- C9 as amended: aggregation followed by classification is
interleaving-insensitive provided every delivered record classifies
without an exception (for the flat cpu policy this holds always; for the
gpu policy it is a genuine proviso): any two complete (closed) runs of
the aggregation model from the same per-region sequences yield the same
multiset of accepted records, for an arbitrary pure accept predicate, for
the cpu consumer, and for the gpu consumer. -/
theorem interleaving_accept_multiset (q : Pricing → Bool) (evss : List (List Ev))
    (s₁ s₂ : RunState) (h₁ : Steps (initRun evss) s₁) (h₂ : Steps (initRun evss) s₂)
    (hc₁ : s₁.closed = true) (hc₂ : s₂.closed = true)
    (hok : ∀ p ∈ s₁.consumed, ∃ b, gpuAccept p = Except.ok b) :
    ((s₁.consumed.filter q : List Pricing) : Multiset Pricing) =
      ((s₂.consumed.filter q : List Pricing) : Multiset Pricing)
    ∧ ((cpuConsume s₁.consumed : List Pricing) : Multiset Pricing) =
      ((cpuConsume s₂.consumed : List Pricing) : Multiset Pricing)
    ∧ (((gpuConsume s₁.consumed).1 : List Pricing) : Multiset Pricing) =
      (((gpuConsume s₂.consumed).1 : List Pricing) : Multiset Pricing) := by
  have e₁ := (closed_run_consumed evss s₁ h₁ hc₁).1
  have e₂ := (closed_run_consumed evss s₂ h₂ hc₂).1
  have hperm : s₁.consumed.Perm s₂.consumed :=
    Multiset.coe_eq_coe.mp (e₁.trans e₂.symm)
  have hok₂ : ∀ p ∈ s₂.consumed, ∃ b, gpuAccept p = Except.ok b :=
    fun p hp => hok p (hperm.mem_iff.mpr hp)
  refine ⟨Multiset.coe_eq_coe.mpr (hperm.filter q), ?_, ?_⟩
  · rw [cpuConsume_eq_filter, cpuConsume_eq_filter]
    exact Multiset.coe_eq_coe.mpr (hperm.filter cpuAccept)
  · rw [gpuConsume_ok s₁.consumed hok, gpuConsume_ok s₂.consumed hok₂]
    exact Multiset.coe_eq_coe.mpr
      (hperm.filter (fun p => decide (gpuAccept p = Except.ok true)))

/-- Witness for `interleaving_accept_multiset`: the two interleavings
`[ra9, rb9]` and `[rb9, ra9]` of two one-record regions. -/
theorem interleaving_accept_multiset_witness :
    (([ra9, rb9].filter cpuAccept : List Pricing) : Multiset Pricing) =
      (([rb9, ra9].filter cpuAccept : List Pricing) : Multiset Pricing)
    ∧ ((cpuConsume [ra9, rb9] : List Pricing) : Multiset Pricing) =
      ((cpuConsume [rb9, ra9] : List Pricing) : Multiset Pricing)
    ∧ (((gpuConsume [ra9, rb9]).1 : List Pricing) : Multiset Pricing) =
      (((gpuConsume [rb9, ra9]).1 : List Pricing) : Multiset Pricing) := by
  have hsteps₁ : Steps (initRun [[Ev.price ra9], [Ev.price rb9]])
      ⟨[⟨[], true⟩, ⟨[], true⟩], [ra9, rb9], false, true⟩ := by
    have h1 : Step (initRun [[Ev.price ra9], [Ev.price rb9]])
        ⟨[⟨[], false⟩, ⟨[Ev.price rb9], false⟩], [ra9], false, false⟩ :=
      Step.emit [] [⟨[Ev.price rb9], false⟩] ra9 [] []
    have h2 : Step ⟨[⟨[], false⟩, ⟨[Ev.price rb9], false⟩], [ra9], false, false⟩
        ⟨[⟨[], false⟩, ⟨[], false⟩], [ra9, rb9], false, false⟩ :=
      Step.emit [⟨[], false⟩] [] rb9 [] [ra9]
    have h3 : Step ⟨[⟨[], false⟩, ⟨[], false⟩], [ra9, rb9], false, false⟩
        ⟨[⟨[], true⟩, ⟨[], false⟩], [ra9, rb9], false, false⟩ :=
      Step.finish [] [⟨[], false⟩] [ra9, rb9] false
    have h4 : Step ⟨[⟨[], true⟩, ⟨[], false⟩], [ra9, rb9], false, false⟩
        ⟨[⟨[], true⟩, ⟨[], true⟩], [ra9, rb9], false, false⟩ :=
      Step.finish [⟨[], true⟩] [] [ra9, rb9] false
    have h5 : Step ⟨[⟨[], true⟩, ⟨[], true⟩], [ra9, rb9], false, false⟩
        ⟨[⟨[], true⟩, ⟨[], true⟩], [ra9, rb9], false, true⟩ :=
      Step.close [⟨[], true⟩, ⟨[], true⟩] [ra9, rb9] (by decide)
    exact Relation.ReflTransGen.tail
      (Relation.ReflTransGen.tail
        (Relation.ReflTransGen.tail
          (Relation.ReflTransGen.tail (Relation.ReflTransGen.single h1) h2) h3) h4) h5
  have hsteps₂ : Steps (initRun [[Ev.price ra9], [Ev.price rb9]])
      ⟨[⟨[], true⟩, ⟨[], true⟩], [rb9, ra9], false, true⟩ := by
    have h1 : Step (initRun [[Ev.price ra9], [Ev.price rb9]])
        ⟨[⟨[Ev.price ra9], false⟩, ⟨[], false⟩], [rb9], false, false⟩ :=
      Step.emit [⟨[Ev.price ra9], false⟩] [] rb9 [] []
    have h2 : Step ⟨[⟨[Ev.price ra9], false⟩, ⟨[], false⟩], [rb9], false, false⟩
        ⟨[⟨[], false⟩, ⟨[], false⟩], [rb9, ra9], false, false⟩ :=
      Step.emit [] [⟨[], false⟩] ra9 [] [rb9]
    have h3 : Step ⟨[⟨[], false⟩, ⟨[], false⟩], [rb9, ra9], false, false⟩
        ⟨[⟨[], true⟩, ⟨[], false⟩], [rb9, ra9], false, false⟩ :=
      Step.finish [] [⟨[], false⟩] [rb9, ra9] false
    have h4 : Step ⟨[⟨[], true⟩, ⟨[], false⟩], [rb9, ra9], false, false⟩
        ⟨[⟨[], true⟩, ⟨[], true⟩], [rb9, ra9], false, false⟩ :=
      Step.finish [⟨[], true⟩] [] [rb9, ra9] false
    have h5 : Step ⟨[⟨[], true⟩, ⟨[], true⟩], [rb9, ra9], false, false⟩
        ⟨[⟨[], true⟩, ⟨[], true⟩], [rb9, ra9], false, true⟩ :=
      Step.close [⟨[], true⟩, ⟨[], true⟩] [rb9, ra9] (by decide)
    exact Relation.ReflTransGen.tail
      (Relation.ReflTransGen.tail
        (Relation.ReflTransGen.tail
          (Relation.ReflTransGen.tail (Relation.ReflTransGen.single h1) h2) h3) h4) h5
  have hok : ∀ p ∈ ([ra9, rb9] : List Pricing), ∃ b, gpuAccept p = Except.ok b := by
    intro p hp
    rcases List.mem_cons.mp hp with rfl | hp
    · exact ⟨true, gpuAccept_ra9⟩
    rcases List.mem_cons.mp hp with rfl | hp
    · exact ⟨true, gpuAccept_rb9⟩
    cases hp
  exact interleaving_accept_multiset cpuAccept [[Ev.price ra9], [Ev.price rb9]]
    ⟨[⟨[], true⟩, ⟨[], true⟩], [ra9, rb9], false, true⟩
    ⟨[⟨[], true⟩, ⟨[], true⟩], [rb9, ra9], false, true⟩
    hsteps₁ hsteps₂ rfl rfl hok
